import Mathlib

/-!
Verification development for the svg-api Python SDK
(`packages/python-sdk/svg_api/`).

The definitions below are a shallow embedding of the SDK source:

* `calculate_retry_delay`, `retry_with_backoff` — `svg_api/utils.py`
* `raise_for_status` and the error taxonomy — `svg_api/errors.py`
* the synchronous request executor — `svg_api/client.py` (`SvgApi._request`,
  `SvgApi._handle_response`)
* the asynchronous request executor — `svg_api/async_client.py`
  (`AsyncSvgApi._request`, `AsyncSvgApi._handle_response`)
* parameter validation — `svg_api/utils.py` (`validate_color`,
  `validate_size`, `validate_stroke`), `svg_api/types.py`
  (`BatchRequestOptions`) and the endpoint methods in `client.py`
* package-root imports — `svg_api/__init__.py`
* connection lifecycle — `SvgApi.close` / `AsyncSvgApi._get_session`, `close`

Python floats are modelled as exact rationals (`ℚ`); the numeric literals
involved (0.5, 2.0, 30.0) are dyadic and exact, and the bounds proved are
robust to the rounding of 0.1.  Machine randomness (`time.time() % 1`) is
modelled as an explicit jitter-fraction argument in `[0,1)`.
-/

namespace SvgApiSdk

/-! Error taxonomy (`svg_api/errors.py`).

One kind per concrete exception class raised by the SDK:
`InvalidRequestError`, `AuthenticationError`, `NotFoundError`,
`RateLimitError`, `ServiceUnavailableError`, `ApiError` (other 5xx,
the taxonomy kind called `Server` in the spec), `NetworkError`,
`TimeoutError`.  There is no `Unknown` class in `errors.py`. -/

inductive ErrorKind where
  | invalidRequest
  | authentication
  | notFound
  | rateLimit
  | serviceUnavailable
  | server
  | network
  | timeout
  deriving DecidableEq, Repr

/-- The `body.error.details` mapping of a parsed JSON error envelope.  Only the
`retry_after` key is ever inspected by the SDK (`errors.py:212`); the
remaining keys are opaque and elided from the model. -/
structure ErrorDetails where
  retryAfter : Option Int
  deriving DecidableEq, Repr

/-- The `body.error` object of a parsed JSON error envelope (`{message, code, details}`). -/
structure ErrorInfo where
  message : Option String
  code : Option String
  details : Option ErrorDetails
  deriving DecidableEq, Repr

/-- A best-effort-parsed JSON response body.  `data.get("error", {})` is
modelled by the optional `error` field; a body that failed to parse is
`⟨none⟩` (the empty mapping). -/
structure Body where
  error : Option ErrorInfo
  deriving DecidableEq, Repr

/-- An `SvgApiError` instance (`errors.py:12-36`): message, optional machine
code, optional HTTP status, optional details mapping, optional request id,
and (for rate limiting) an optional retry-after hint.  The Python
constructor normalises `details=None` to `{}`; the raw optional value is
kept here, which the claims never distinguish. -/
structure SdkError where
  kind : ErrorKind
  message : String
  code : Option String
  statusCode : Option Nat
  details : Option ErrorDetails
  requestId : Option String
  retryAfter : Option Int
  deriving DecidableEq, Repr

/-- Result of `raise_for_status(status_code, data, request_id)`
(`errors.py:166-236`).

* `classified e` — one of the `raise ...Error(...)` branches ran.
* `ctorCrash` — the 429 branch was taken: `RateLimitError.__init__`
  receives `status_code` both explicitly (`errors.py:87` passes
  `status_code=429` to `super().__init__`) and through `**kwargs`
  (`errors.py:215` passes `status_code=status_code`), so constructing the
  error raises `TypeError: got multiple values for keyword argument`
  before any `RateLimitError` exists.
* `noMatch` — no branch matched (status ≥ 400 but not 400/401/404/429/5xx);
  the function falls off the end and returns `None`. -/
inductive ClassifyResult where
  | classified (e : SdkError)
  | ctorCrash
  | noMatch
  deriving DecidableEq, Repr

/-- Embeds `error_info.get("message", "Unknown error")` via `data.get("error", ...)`. -/
def bodyMessage (b : Body) : String :=
  (b.error.bind ErrorInfo.message).getD "Unknown error"

/-- Embeds `error_info.get("code")`. -/
def bodyCode (b : Body) : Option String :=
  b.error.bind ErrorInfo.code

/-- Embeds `error_info.get("details")`. -/
def bodyDetails (b : Body) : Option ErrorDetails :=
  b.error.bind ErrorInfo.details

/-- Shallow embedding of `raise_for_status` (`errors.py:166-236`).  The
branch order mirrors the source: 400, 401, 404, 429, then `status >= 500`
with 503 split out inside; any other status falls through (`noMatch`). -/
def raise_for_status (status : Nat) (b : Body) (rid : Option String) :
    ClassifyResult :=
  if status = 400 then
    .classified ⟨.invalidRequest, bodyMessage b, bodyCode b, some status,
      bodyDetails b, rid, none⟩
  else if status = 401 then
    .classified ⟨.authentication, bodyMessage b, bodyCode b, some status,
      bodyDetails b, rid, none⟩
  else if status = 404 then
    .classified ⟨.notFound, bodyMessage b, bodyCode b, some status,
      bodyDetails b, rid, none⟩
  else if status = 429 then
    -- `retry_after` is computed (`details.get("retry_after") if details
    -- else None`) but the RateLimitError construction then crashes with a
    -- TypeError: `status_code` is passed twice (see `ClassifyResult`).
    .ctorCrash
  else if 500 ≤ status then
    if status = 503 then
      .classified ⟨.serviceUnavailable, bodyMessage b, bodyCode b,
        some status, bodyDetails b, rid, none⟩
    else
      .classified ⟨.server, bodyMessage b, bodyCode b, some status,
        bodyDetails b, rid, none⟩
  else
    .noMatch

/-! Backoff calculator (`svg_api/utils.py:42-63`). -/

/-- Embedding of `calculate_retry_delay(attempt, base_delay, max_delay, exponential_base)`
with the jitter source `time.time() % 1` made an explicit argument `q`:
`delay = min(base_delay * exponential_base**attempt, max_delay)` and the
returned value is `delay + delay * 0.1 * q`. -/
def calculate_retry_delay (attempt : Nat) (base_delay max_delay
    exponential_base : ℚ) (q : ℚ) : ℚ :=
  let delay := min (base_delay * exponential_base ^ attempt) max_delay
  delay + delay * (1 / 10) * q

/-! Request executors.

A transport is an attempt-indexed sequence of low-level results: either a
completed HTTP exchange or a transport-level failure raised by the HTTP
library while sending (connection failure / deadline overrun). -/

inductive TransportResult where
  /-- A response was received: status code, best-effort-parsed body,
  `X-Request-Id` header. -/
  | ok (status : Nat) (body : Body) (requestId : Option String)
  /-- Transport-level connection failure: `httpx.NetworkError` in the sync
  client, `aiohttp.ClientConnectorError` in the async client. -/
  | connectFail
  /-- Deadline overrun before a response: `httpx.TimeoutException` in the
  sync client, `asyncio.TimeoutError` in the async client. -/
  | timeoutFail
  deriving DecidableEq, Repr

/-- The exception that escapes one attempt of an executor. -/
inductive ExcModel where
  /-- An `SvgApiError` instance. -/
  | sdk (e : SdkError)
  /-- The effect of `raise raise_for_status(...)` where `raise_for_status` returned
  `None` (status ≥ 400 with no matching branch): `raise None` fails with
  `TypeError: exceptions must derive from BaseException`. -/
  | raisedNone
  /-- The `TypeError` from the doomed `RateLimitError` construction on a
  429 response (see `ClassifyResult.ctorCrash`). -/
  | rateLimitCtorCrash
  /-- A raw httpx network exception escaping `SvgApi._request`: the
  `except httpx.NetworkError` handler in `_handle_response`
  (`client.py:269`) wraps only `response.raise_for_status()`, which can
  raise solely `httpx.HTTPStatusError`, so the conversion never runs. -/
  | httpxNetwork
  /-- A raw httpx timeout exception escaping `SvgApi._request`
  (same unreachable-handler situation, `client.py:263`). -/
  | httpxTimeout
  /-- Terminal fallback lines reached only with zero loop iterations:
  `raise RuntimeError("Retry failed with unknown error")` in
  `utils.py:160` and `raise last_error or ApiError(...)` in
  `async_client.py:198`. -/
  | exhaustedFallback
  deriving DecidableEq, Repr

/-- Result of one attempt: the parsed body is returned, or an exception
propagates. -/
inductive ExecOutcome where
  | ok (body : Body)
  | exc (e : ExcModel)
  deriving DecidableEq, Repr

/-- Lift a `raise_for_status` result to the exception it makes the caller
raise (`raise raise_for_status(status, data, request_id)`). -/
def excOf : ClassifyResult → ExecOutcome
  | .classified e => .exc (.sdk e)
  | .ctorCrash => .exc (.rateLimitCtorCrash)
  | .noMatch => .exc (.raisedNone)

/-- Embedding of `SvgApi._handle_response` (`client.py:239-275`): parse the body, then
`response.raise_for_status()` — which raises `httpx.HTTPStatusError`
exactly when `status >= 400` — and convert via `raise_for_status`.  The
`except httpx.TimeoutException` / `except httpx.NetworkError` arms are
unreachable (see `ExcModel.httpxNetwork`). -/
def sync_handle_response (status : Nat) (b : Body) (rid : Option String) :
    ExecOutcome :=
  if 400 ≤ status then excOf (raise_for_status status b rid) else .ok b

/-- Embedding of `AsyncSvgApi._handle_response` (`async_client.py:200-212`): parse the
body, then `if response.status >= 400: raise raise_for_status(...)`. -/
def async_handle_response (status : Nat) (b : Body) (rid : Option String) :
    ExecOutcome :=
  if 400 ≤ status then excOf (raise_for_status status b rid) else .ok b

/-- The `_make_request` closure of `SvgApi._request` (`client.py:221-229`):
send over the transport, then handle.  A transport-level httpx exception
propagates unconverted. -/
def sync_make_request (t : Nat → TransportResult) (n : Nat) : ExecOutcome :=
  match t n with
  | .ok s b r => sync_handle_response s b r
  | .connectFail => .exc .httpxNetwork
  | .timeoutFail => .exc .httpxTimeout

/-- The test `except retryable_errors` in `retry_with_backoff` with the default
`retryable_errors = (NetworkError, TimeoutError)` (`utils.py:140-141`,
the classes of `svg_api.errors`): only SDK network/timeout instances are
caught; every other exception hits `except Exception: raise`. -/
def is_retryable_sync : ExcModel → Bool
  | .sdk e => e.kind == .network || e.kind == .timeout
  | _ => false

/-- Observable trace of one executor invocation: final outcome, number of
attempts performed, and the sequence of backoff sleeps. -/
structure RetryTrace where
  result : ExecOutcome
  attempts : Nat
  delays : List ℚ
  deriving DecidableEq, Repr

/-- The loop of `retry_with_backoff` (`utils.py:145-160`), with
`fuel` = remaining iterations of `for attempt in range(max_attempts)`
(so `fuel = 0` inside an iteration means `attempt == max_attempts - 1`,
the `break`-then-`raise last_exception` case). The jitter fractions drawn
by `calculate_retry_delay` are the stream `jitter`. -/
def retry_with_backoff_aux (mk : Nat → ExecOutcome) (base : ℚ)
    (jitter : Nat → ℚ) : Nat → Nat → RetryTrace
  | 0, attempt => ⟨.exc .exhaustedFallback, attempt, []⟩
  | fuel + 1, attempt =>
    match mk attempt with
    | .ok b => ⟨.ok b, attempt + 1, []⟩
    | .exc e =>
      if is_retryable_sync e then
        if fuel = 0 then ⟨.exc e, attempt + 1, []⟩
        else
          let d := calculate_retry_delay attempt base 30 2 (jitter attempt)
          let r := retry_with_backoff_aux mk base jitter fuel (attempt + 1)
          ⟨r.result, r.attempts, d :: r.delays⟩
      else ⟨.exc e, attempt + 1, []⟩

/-- Embedding of `retry_with_backoff(callable, max_attempts, base_delay)` with default
`max_delay=30.0` and the default retryable classes (`utils.py:114-160`). -/
def retry_with_backoff (mk : Nat → ExecOutcome) (maxAttempts : Nat)
    (base : ℚ) (jitter : Nat → ℚ) : RetryTrace :=
  retry_with_backoff_aux mk base jitter maxAttempts 0

/-- Embedding of `SvgApi._request` (`client.py:192-237`): wrap `_make_request` in
`retry_with_backoff` with `max_attempts = max_retries + 1` when
`max_retries > 0`, else a single direct call. -/
def sync_request (maxRetries : Nat) (retryDelay : ℚ) (jitter : Nat → ℚ)
    (t : Nat → TransportResult) : RetryTrace :=
  if 0 < maxRetries then
    retry_with_backoff (sync_make_request t) (maxRetries + 1) retryDelay jitter
  else
    ⟨sync_make_request t 0, 1, []⟩

/-- The `NetworkError(...)` with message `Connection error: ...` raised at
`async_client.py:181` (the interpolated exception text is elided). -/
def connNetworkError : SdkError :=
  ⟨.network, "Connection error", none, none, none, none, none⟩

/-- The `TimeoutError(message="Request timed out", timeout=...)` raised at
`async_client.py:186-189` (the `timeout` attribute is elided). -/
def connTimeoutError : SdkError :=
  ⟨.timeout, "Request timed out", none, none, none, none, none⟩

/-- The loop of `AsyncSvgApi._request` (`async_client.py:164-198`), with
`fuel` = remaining iterations of `for attempt in range(max_retries + 1)`.
An `SvgApiError` (or the 429 / `raise None` TypeError) raised by
`_handle_response` matches none of the `except` clauses and propagates at
once.  `aiohttp.ClientConnectorError` and `asyncio.TimeoutError` from the
send are converted to SDK errors and retried; at `attempt == max_retries`
the converted error is raised instead.  Before retrying the loop sleeps
`retry_delay * (2 ** attempt)` — no jitter and no cap.  (The
`except aiohttp.ClientResponseError` arm never fires: the session is not
configured with `raise_for_status=True`, so `session.request` does not
raise it.) -/
def async_request_aux (t : Nat → TransportResult) (maxRetries : Nat)
    (retryDelay : ℚ) : Nat → Nat → RetryTrace
  | 0, attempt => ⟨.exc .exhaustedFallback, attempt, []⟩
  | fuel + 1, attempt =>
    match t attempt with
    | .ok s b r => ⟨async_handle_response s b r, attempt + 1, []⟩
    | .connectFail =>
      if attempt = maxRetries then ⟨.exc (.sdk connNetworkError), attempt + 1, []⟩
      else
        let d := retryDelay * 2 ^ attempt
        let r := async_request_aux t maxRetries retryDelay fuel (attempt + 1)
        ⟨r.result, r.attempts, d :: r.delays⟩
    | .timeoutFail =>
      if attempt = maxRetries then ⟨.exc (.sdk connTimeoutError), attempt + 1, []⟩
      else
        let d := retryDelay * 2 ^ attempt
        let r := async_request_aux t maxRetries retryDelay fuel (attempt + 1)
        ⟨r.result, r.attempts, d :: r.delays⟩

/-- Embedding of `AsyncSvgApi._request` (`async_client.py:148-198`):
`max_attempts = max_retries + 1`, unconditionally. -/
def async_request (maxRetries : Nat) (retryDelay : ℚ)
    (t : Nat → TransportResult) : RetryTrace :=
  async_request_aux t maxRetries retryDelay (maxRetries + 1) 0

/-- The empty parsed body (`{}`). -/
def bodyEmpty : Body := ⟨none⟩

/-! Spec-side classifier.

Written from the (amended) claim wording, in the claim's rule order —
400, 401, 404, 429, 503, other ≥ 500, otherwise — to be compared with
the source-side `raise_for_status`. -/

/-- The classification table as the amended claim C5 states it. -/
def classify_spec (status : Nat) (b : Body) (rid : Option String) :
    ClassifyResult :=
  if status = 400 then
    .classified ⟨.invalidRequest, bodyMessage b, bodyCode b, some status,
      bodyDetails b, rid, none⟩
  else if status = 401 then
    .classified ⟨.authentication, bodyMessage b, bodyCode b, some status,
      bodyDetails b, rid, none⟩
  else if status = 404 then
    .classified ⟨.notFound, bodyMessage b, bodyCode b, some status,
      bodyDetails b, rid, none⟩
  else if status = 429 then
    .ctorCrash
  else if status = 503 then
    .classified ⟨.serviceUnavailable, bodyMessage b, bodyCode b, some status,
      bodyDetails b, rid, none⟩
  else if 500 ≤ status then
    .classified ⟨.server, bodyMessage b, bodyCode b, some status,
      bodyDetails b, rid, none⟩
  else
    .noMatch

/-! Parameter validation (`svg_api/utils.py:163-207` and the endpoint methods).

Colors are validated with two `re.match` calls: a hex pattern (a hash
sign then exactly six hex digits then the anchor) and a name pattern (one
or more lowercase letters then the anchor).  In Python `$` matches at the end of the
string or just before one newline at the very end, so the accepted
languages are the bare patterns optionally followed by a single `\n`. -/

def isLowerPy (c : Char) : Bool := 'a' ≤ c && c ≤ 'z'

def isHexDigitPy (c : Char) : Bool :=
  ('0' ≤ c && c ≤ '9') || ('a' ≤ c && c ≤ 'f') || ('A' ≤ c && c ≤ 'F')

/-- Python re `$` anchor on the rest of the string: end of input, or a
single final newline. -/
def dollarAnchor (cs : List Char) : Bool := cs == [] || cs == ['\n']

/-- Embeds `re.match` of the hex pattern as a Bool.  The pattern has no
backtracking choices: a `#`, exactly six hex digits, then `$`. -/
def pythonMatchHex : List Char → Bool
  | c :: rest =>
    c == '#' && (rest.take 6).length == 6 && (rest.take 6).all isHexDigitPy
      && dollarAnchor (rest.drop 6)
  | [] => false

/-- Embeds `re.match` of the name pattern as a Bool.  Greedy matching is exact here:
any remainder that satisfies `$` is `[]` or `['\n']`, neither of which
starts with a lowercase letter, so `[a-z]+` must consume the maximal
lowercase prefix. -/
def pythonMatchName (cs : List Char) : Bool :=
  !(cs.takeWhile isLowerPy).isEmpty && dollarAnchor (cs.dropWhile isLowerPy)

/-- Embedding of `validate_color` (`utils.py:163-181`). -/
def validate_color (cs : List Char) : Bool :=
  pythonMatchHex cs || pythonMatchName cs

/-- Embedding of `validate_size` (`utils.py:184-194`): `8 <= size <= 512`. -/
def validate_size (size : Int) : Bool :=
  decide (8 ≤ size ∧ size ≤ 512)

/-- Embedding of `validate_stroke` (`utils.py:197-207`): `0.5 <= stroke <= 3.0`. -/
def validate_stroke (stroke : ℚ) : Bool :=
  decide (1 / 2 ≤ stroke ∧ stroke ≤ 3)

/-- Spec-side color form: a 6-hex-digit `#rrggbb` string, per the claim
wording (nothing after the six digits). -/
def specHexColor : List Char → Bool
  | c :: rest => c == '#' && rest.length == 6 && rest.all isHexDigitPy
  | [] => false

/-- Spec-side color form: a lowercase alphabetic name token, per the claim
wording (nonempty, lowercase letters only). -/
def specLowerToken (cs : List Char) : Bool :=
  !cs.isEmpty && cs.all isLowerPy

/-- What `SvgApi.get_icon` does before any network activity. -/
inductive GetIconStep where
  /-- The step `raise InvalidRequestError(..., code=...)` locally, before
  `_request` runs. -/
  | localInvalidRequest (code : String)
  /-- all local checks passed; `self._request("GET", ...)` is invoked. -/
  | sendRequest
  deriving DecidableEq, Repr

/-- The validation prefix of `SvgApi.get_icon` (`client.py:277-333`; the
async variants run the identical checks): each optional parameter is
checked in order — size, stroke, color — and the first failure raises
`InvalidRequestError` with the corresponding code before `_request`. -/
def get_icon_validate (size : Option Int) (stroke : Option ℚ)
    (color : Option (List Char)) : GetIconStep :=
  if size.any (fun s => !validate_size s) then
    .localInvalidRequest "INVALID_SIZE"
  else if stroke.any (fun k => !validate_stroke k) then
    .localInvalidRequest "INVALID_STROKE"
  else if color.any (fun c => !validate_color c) then
    .localInvalidRequest "INVALID_COLOR"
  else
    .sendRequest

/-! Batch validation (`svg_api/types.py:393-414`, `client.py:433-476`). -/

/-- One element of the `icons` list passed to `BatchRequestOptions`.  Only
`name` is inspected by the `icons` validation (`min_length`/`max_length`
bound the list, the field validator requires every `icon.name` to be
non-empty); the optional per-item override fields are elided. -/
structure BatchIconRequestM where
  name : String
  deriving DecidableEq, Repr

/-- The `icons` field validation of `BatchRequestOptions`
(`types.py:402-414`): pydantic `min_length=1`, `max_length=50`, then the
`validate_icons` field validator rejecting any falsy (empty) name. -/
def batch_icons_validate (icons : List BatchIconRequestM) :
    Except String Unit :=
  if icons.length < 1 then .error "List should have at least 1 item"
  else if 50 < icons.length then .error "List should have at most 50 items"
  else
    match icons.find? (fun i => i.name == "") with
    | some _ => .error "Icon name is required"
    | none => .ok ()

/-- Validation of the `defaults` field of `BatchRequestOptions` as
`get_batch` invokes it (`client.py:462-468`): the field is declared
`BatchDefaults` (`types.py:403-405`) but the call site passes a
`BatchIconRequest` instance (`client.py:464`).  Pydantic v2 rejects an
instance of a sibling model for a model-typed field (no `from_attributes`
is configured), so this validation fails on every `get_batch` call,
independent of its arguments. -/
def defaults_field_validate : Except String Unit :=
  .error "Input should be a valid dictionary or instance of BatchDefaults"

/-- What `SvgApi.get_batch` does up to the transport call. -/
inductive GetBatchStep where
  /-- the `BatchRequestOptions` construction raised a pydantic
  `ValidationError`; `self._request` is never reached. -/
  | invalidBatch (msg : String)
  /-- every field validation passed and `_request("POST", "/icons/batch",
  ...)` is invoked — unreachable in the source, because the `defaults`
  field validation always fails. -/
  | sendRequest
  deriving DecidableEq, Repr

/-- Embedding of `SvgApi.get_batch` (`client.py:433-476`) up to the
transport call: it constructs `BatchRequestOptions(icons=...,
defaults=BatchIconRequest(...))` before `self._request`, so any
validation failure precedes all HTTP activity.  Pydantic validates the
fields in declaration order — `icons` (`batch_icons_validate`) then
`defaults` (`defaults_field_validate`) — collecting the failures into one
`ValidationError` raised on construction; the model reports the first
failing field.  Since the `defaults` validation never passes, no input
reaches `.sendRequest`. -/
def get_batch_check (icons : List BatchIconRequestM) : GetBatchStep :=
  match batch_icons_validate icons with
  | .error m => .invalidBatch m
  | .ok _ =>
    match defaults_field_validate with
    | .error m => .invalidBatch m
    | .ok _ => .sendRequest

/-! Package-root imports (`svg_api/__init__.py`).

Evaluating `import svg_api` runs the `from ... import ...` statements of
`__init__.py` in order; each imported name must be defined by its module,
and the first missing name aborts the whole package import with an
`ImportError`, leaving nothing bound. -/

/-- Top-level names defined by `svg_api/types.py`. -/
def typesDefinedNames : List String :=
  ["License", "Source", "Category", "Icon", "SearchResult", "Meta",
   "PaginationMeta", "SearchMeta", "ApiResponse", "IconResponse",
   "SearchResponse", "BatchIconResult", "BatchError", "BatchMeta",
   "BatchResponse", "SourcesResponse", "CategoriesResponse", "IconOptions",
   "SearchOptions", "BatchIconRequest", "BatchDefaults",
   "BatchRequestOptions", "RandomIconOptions"]

/-- Top-level names defined by `svg_api/errors.py`. -/
def errorsDefinedNames : List String :=
  ["SvgApiError", "ApiError", "AuthenticationError", "RateLimitError",
   "InvalidRequestError", "NotFoundError", "ServiceUnavailableError",
   "TimeoutError", "NetworkError", "raise_for_status"]

/-- Top-level names defined by `svg_api/client.py`. -/
def clientDefinedNames : List String :=
  ["DEFAULT_BASE_URL", "DEFAULT_TIMEOUT", "USER_AGENT", "SvgApiConfig",
   "_SvgApiBase", "SvgApi", "AsyncSvgApi"]

/-- Top-level names defined by `svg_api/async_client.py`. -/
def asyncClientDefinedNames : List String :=
  ["DEFAULT_BASE_URL", "DEFAULT_TIMEOUT", "USER_AGENT", "AsyncSvgApiConfig",
   "AsyncSvgApi"]

def moduleDefines (m : String) : List String :=
  if m == "client" then clientDefinedNames
  else if m == "async_client" then asyncClientDefinedNames
  else if m == "types" then typesDefinedNames
  else if m == "errors" then errorsDefinedNames
  else []

/-- The `(module, name)` pairs imported by `svg_api/__init__.py:23-47`,
in source order. -/
def initImportList : List (String × String) :=
  [("client", "SvgApi"), ("client", "SvgApiConfig"),
   ("async_client", "AsyncSvgApi"), ("async_client", "AsyncSvgApiConfig"),
   ("types", "Icon"), ("types", "IconLicense"), ("types", "Source"),
   ("types", "Category"), ("types", "SearchResult"),
   ("types", "BatchIconResult"), ("types", "BatchResponse"),
   ("types", "SearchResponse"), ("types", "SourcesResponse"),
   ("types", "CategoriesResponse"), ("types", "IconResponse"),
   ("errors", "SvgApiError"), ("errors", "NotFoundError"),
   ("errors", "InvalidRequestError"), ("errors", "RateLimitError"),
   ("errors", "ServerError"), ("errors", "NetworkError"),
   ("errors", "TimeoutError"), ("errors", "AuthenticationError")]

/-- Resolve the imports in order; the first name its module does not
define raises `ImportError` naming it. -/
def resolve_imports : List (String × String) → Except String Unit
  | [] => .ok ()
  | (m, n) :: rest =>
    if n ∈ moduleDefines m then resolve_imports rest else .error n

/-- Evaluation of `import svg_api`: resolve the package-root imports. -/
def package_root_import : Except String Unit :=
  resolve_imports initImportList

/-- The `__all__` list of `svg_api/__init__.py:50-77`. -/
def initAllNames : List String :=
  ["SvgApi", "SvgApiConfig", "AsyncSvgApi", "AsyncSvgApiConfig", "Icon",
   "IconLicense", "Source", "Category", "SearchResult", "BatchIconResult",
   "BatchResponse", "SearchResponse", "SourcesResponse",
   "CategoriesResponse", "IconResponse", "SvgApiError", "NotFoundError",
   "InvalidRequestError", "RateLimitError", "ServerError", "NetworkError",
   "TimeoutError", "AuthenticationError"]

/-! Connection lifecycle (`SvgApi.close`, `AsyncSvgApi` in
`async_client.py:104-146`)

The sync client owns one `httpx.Client` built in `__init__`
(`client.py:167`); `close` delegates to `httpx.Client.close`, which is
idempotent and never raises, and nothing in `client.py` ever recreates the
client, so a later `self._client.request(...)` hits the closed httpx
client, which refuses to send (httpx raises a `RuntimeError` on a closed
client).  The aiohttp client stores an optional session and
`_get_session` rebuilds it whenever it is absent or closed. -/

structure HttpxClientState where
  closed : Bool
  deriving DecidableEq, Repr

structure SyncClientState where
  client : HttpxClientState
  deriving DecidableEq, Repr

/-- The client as `SvgApi.__init__` leaves it: an open `httpx.Client`. -/
def syncInitState : SyncClientState := ⟨⟨false⟩⟩

/-- Embedding of `SvgApi.close` (`client.py:188-190`): `self._client.close()` —
total, idempotent. -/
def sync_close_client (_ : SyncClientState) : SyncClientState := ⟨⟨true⟩⟩

/-- The send `self._client.request(...)` (`client.py:222`): a closed httpx client
refuses to send; nothing reopens it first. -/
def sync_send (c : SyncClientState) : Except String SyncClientState :=
  if c.client.closed then .error "Cannot send a request, as the client has been closed"
  else .ok c

structure AioSessionState where
  closed : Bool
  deriving DecidableEq, Repr

structure AsyncClientState where
  session : Option AioSessionState
  deriving DecidableEq, Repr

/-- The state `AsyncSvgApi.__init__` leaves (`async_client.py:101`): `self._session = None`. -/
def asyncInitState : AsyncClientState := ⟨none⟩

/-- Embedding of `AsyncSvgApi._get_session` (`async_client.py:104-130`): if the session
is `None` or closed, build a fresh open session (and connector); return
the session to use. -/
def async_get_session (c : AsyncClientState) :
    AsyncClientState × AioSessionState :=
  match c.session with
  | some s => if s.closed then (⟨some ⟨false⟩⟩, ⟨false⟩) else (c, s)
  | none => (⟨some ⟨false⟩⟩, ⟨false⟩)

/-- Embedding of `AsyncSvgApi.close` (`async_client.py:141-146`): close the session if
present and open (a second close is a no-op), close the connector —
total, never raises. -/
def async_close_client (c : AsyncClientState) : AsyncClientState :=
  match c.session with
  | some _ => ⟨some ⟨true⟩⟩
  | none => c

/-- One `_request` send as far as the session is concerned: acquire via
`_get_session`, then the send proceeds on an open session.  The returned
flag records whether the session used was open. -/
def async_send (c : AsyncClientState) : AsyncClientState × Bool :=
  let p := async_get_session c
  (p.1, !p.2.closed)

/-! Concrete fixtures used by the counterexamples and witnesses. -/

/-- A transport answering every attempt with a `503` and an empty body. -/
def t503 : Nat → TransportResult := fun _ => .ok 503 bodyEmpty none

/-- A transport answering every attempt with a `200` and an empty body. -/
def tok200 : Nat → TransportResult := fun _ => .ok 200 bodyEmpty none

/-- A transport answering every attempt with a `404` and an empty body. -/
def t404 : Nat → TransportResult := fun _ => .ok 404 bodyEmpty none

/-- A transport failing every attempt with a connection error. -/
def tconn : Nat → TransportResult := fun _ => .connectFail

/-- A transport overrunning the deadline on every attempt. -/
def ttimeout : Nat → TransportResult := fun _ => .timeoutFail

/-- A rate-limit error body carrying `error.details.retry_after = 30`. -/
def body429 : Body :=
  ⟨some ⟨some "Rate limited", some "RATE_LIMITED", some ⟨some 30⟩⟩⟩

/-- A transport answering every attempt with a `429` and `body429`. -/
def t429 : Nat → TransportResult := fun _ => .ok 429 body429 none

/-- The string `"red\n"`: not a lowercase token (it contains a newline),
yet accepted by the Python regex `^[a-z]+$`. -/
def colorRedNl : List Char := ['r', 'e', 'd', '\n']

/-! Helper lemmas shared by the claim theorems. -/

/-- No branch of `raise_for_status` builds a `NetworkError` or
`TimeoutError`: a classified error is never in the retryable set of
`retry_with_backoff`. -/
theorem raise_for_status_not_retryable (s : Nat) (b : Body)
    (rid : Option String) (e : SdkError)
    (h : raise_for_status s b rid = .classified e) :
    is_retryable_sync (.sdk e) = false := by
  unfold raise_for_status at h
  split_ifs at h <;> (injection h with h; subst h; rfl)

/-- Any exception escaping `SvgApi._handle_response` fails the
`isinstance(e, (NetworkError, TimeoutError))` test of
`retry_with_backoff`. -/
theorem handle_not_retryable (s : Nat) (b : Body) (rid : Option String)
    (e : ExcModel) (h : sync_handle_response s b rid = .exc e) :
    is_retryable_sync e = false := by
  unfold sync_handle_response at h
  by_cases hs : 400 ≤ s
  · rw [if_pos hs] at h
    cases hc : raise_for_status s b rid with
    | classified e0 =>
      rw [hc] at h
      simp only [excOf] at h
      injection h with h
      subst h
      exact raise_for_status_not_retryable s b rid e0 hc
    | ctorCrash =>
      rw [hc] at h
      simp only [excOf] at h
      injection h with h
      subst h
      rfl
    | noMatch =>
      rw [hc] at h
      simp only [excOf] at h
      injection h with h
      subst h
      rfl
  · rw [if_neg hs] at h
    exact absurd h (by simp)

/-- The two `_handle_response` implementations classify identically. -/
theorem handle_response_eq (s : Nat) (b : Body) (rid : Option String) :
    sync_handle_response s b rid = async_handle_response s b rid := rfl

/-- If the first attempt does not raise a retryable error, the sync
executor stops after exactly one attempt with no sleeps. -/
theorem sync_request_first_attempt (maxRetries : Nat) (rd : ℚ)
    (jitter : Nat → ℚ) (t : Nat → TransportResult)
    (h : ∀ e, sync_make_request t 0 = .exc e → is_retryable_sync e = false) :
    sync_request maxRetries rd jitter t = ⟨sync_make_request t 0, 1, []⟩ := by
  unfold sync_request
  split_ifs with hmr
  · unfold retry_with_backoff
    cases hmk : sync_make_request t 0 with
    | ok b =>
      obtain ⟨k, hk⟩ : ∃ k, maxRetries + 1 = k + 1 := ⟨maxRetries, rfl⟩
      rw [hk]
      simp [retry_with_backoff_aux, hmk]
    | exc e =>
      obtain ⟨k, hk⟩ : ∃ k, maxRetries + 1 = k + 1 := ⟨maxRetries, rfl⟩
      rw [hk]
      simp [retry_with_backoff_aux, hmk, h e hmk]
  · rfl

/-- If the first attempt yields a completed response, the async executor
stops after exactly one attempt with no sleeps. -/
theorem async_request_first_attempt (maxRetries : Nat) (rd : ℚ)
    (t : Nat → TransportResult) (s : Nat) (b : Body) (rid : Option String)
    (h : t 0 = .ok s b rid) :
    async_request maxRetries rd t = ⟨async_handle_response s b rid, 1, []⟩ := by
  unfold async_request
  simp [async_request_aux, h]

/-- Unfolding of the `$` anchor test. -/
theorem dollarAnchor_iff (cs : List Char) :
    dollarAnchor cs = true ↔ cs = [] ∨ cs = ['\n'] := by
  simp [dollarAnchor]

/-- A `takeWhile` walks through a prefix it fully satisfies. -/
theorem takeWhile_append_all (p : Char → Bool) (l1 l2 : List Char)
    (h : l1.all p = true) :
    (l1 ++ l2).takeWhile p = l1 ++ l2.takeWhile p := by
  induction l1 with
  | nil => simp
  | cons a l ih =>
    simp only [List.all_cons, Bool.and_eq_true] at h
    simp [List.takeWhile_cons, h.1, ih h.2]

/-- A `dropWhile` discards a prefix it fully satisfies. -/
theorem dropWhile_append_all (p : Char → Bool) (l1 l2 : List Char)
    (h : l1.all p = true) :
    (l1 ++ l2).dropWhile p = l2.dropWhile p := by
  induction l1 with
  | nil => simp
  | cons a l ih =>
    simp only [List.all_cons, Bool.and_eq_true] at h
    simp [List.dropWhile_cons, h.1, ih h.2]

/-- Everything `takeWhile` keeps satisfies the predicate. -/
theorem all_takeWhile_self (p : Char → Bool) (l : List Char) :
    (l.takeWhile p).all p = true := by
  induction l with
  | nil => rfl
  | cons a l ih =>
    by_cases h : p a = true
    · simp [List.takeWhile_cons, h, ih]
    · simp [List.takeWhile_cons, h]

/-- The hex regex accepts exactly a spec-form hex color optionally
followed by one trailing newline. -/
theorem pythonMatchHex_iff (cs : List Char) :
    pythonMatchHex cs = true ↔ ∃ core suffix, cs = core ++ suffix ∧
      (suffix = [] ∨ suffix = ['\n']) ∧ specHexColor core = true := by
  cases cs with
  | nil =>
    constructor
    · intro h
      exact absurd h (by decide)
    · rintro ⟨core, suffix, hcs, _, hspec⟩
      cases core with
      | nil => simp [specHexColor] at hspec
      | cons c0 core0 => simp at hcs
  | cons c rest =>
    simp only [pythonMatchHex, Bool.and_eq_true, beq_iff_eq]
    constructor
    · rintro ⟨⟨⟨hc, hlen⟩, hall⟩, hanch⟩
      refine ⟨c :: rest.take 6, rest.drop 6, ?_,
        (dollarAnchor_iff _).mp hanch, ?_⟩
      · rw [List.cons_append, List.take_append_drop]
      · simp only [specHexColor, Bool.and_eq_true, beq_iff_eq]
        exact ⟨⟨hc, hlen⟩, hall⟩
    · rintro ⟨core, suffix, hcs, hsuf, hspec⟩
      cases core with
      | nil => simp [specHexColor] at hspec
      | cons c0 core0 =>
        simp only [specHexColor, Bool.and_eq_true, beq_iff_eq] at hspec
        obtain ⟨⟨hc0, hlen⟩, hall⟩ := hspec
        simp only [List.cons_append, List.cons.injEq] at hcs
        obtain ⟨rfl, rfl⟩ := hcs
        have htake : (core0 ++ suffix).take 6 = core0 := by
          rw [← hlen]
          exact List.take_left core0 suffix
        have hdrop : (core0 ++ suffix).drop 6 = suffix := by
          rw [← hlen]
          exact List.drop_left core0 suffix
        refine ⟨⟨⟨hc0, ?_⟩, ?_⟩, ?_⟩
        · rw [htake, hlen]
        · rw [htake]
          exact hall
        · rw [hdrop]
          exact (dollarAnchor_iff _).mpr hsuf

/-- The name regex accepts exactly a spec-form lowercase token optionally
followed by one trailing newline. -/
theorem pythonMatchName_iff (cs : List Char) :
    pythonMatchName cs = true ↔ ∃ core suffix, cs = core ++ suffix ∧
      (suffix = [] ∨ suffix = ['\n']) ∧ specLowerToken core = true := by
  constructor
  · intro h
    simp only [pythonMatchName, Bool.and_eq_true, Bool.not_eq_true',
      List.isEmpty_eq_false] at h
    obtain ⟨hne, hanch⟩ := h
    refine ⟨cs.takeWhile isLowerPy, cs.dropWhile isLowerPy,
      (List.takeWhile_append_dropWhile isLowerPy cs).symm,
      (dollarAnchor_iff _).mp hanch, ?_⟩
    simp only [specLowerToken, Bool.and_eq_true, Bool.not_eq_true',
      List.isEmpty_eq_false]
    exact ⟨hne, all_takeWhile_self isLowerPy cs⟩
  · rintro ⟨core, suffix, rfl, hsuf, hspec⟩
    simp only [specLowerToken, Bool.and_eq_true, Bool.not_eq_true',
      List.isEmpty_eq_false] at hspec
    obtain ⟨hne, hall⟩ := hspec
    have ht : (core ++ suffix).takeWhile isLowerPy = core := by
      rw [takeWhile_append_all isLowerPy core suffix hall]
      rcases hsuf with rfl | rfl
      · simp
      · have hnl : List.takeWhile isLowerPy ['\n'] = [] := by decide
        rw [hnl, List.append_nil]
    have hd : (core ++ suffix).dropWhile isLowerPy = suffix := by
      rw [dropWhile_append_all isLowerPy core suffix hall]
      rcases hsuf with rfl | rfl
      · rfl
      · decide
    simp only [pythonMatchName, Bool.and_eq_true, Bool.not_eq_true',
      List.isEmpty_eq_false, ht, hd]
    exact ⟨hne, (dollarAnchor_iff _).mpr hsuf⟩

/-- The full color validation as a disjunction of the two characterized
regex languages. -/
theorem validate_color_iff (cs : List Char) :
    validate_color cs = true ↔ ∃ core suffix, cs = core ++ suffix ∧
      (suffix = [] ∨ suffix = ['\n']) ∧
      (specHexColor core = true ∨ specLowerToken core = true) := by
  simp only [validate_color, Bool.or_eq_true, pythonMatchHex_iff,
    pythonMatchName_iff]
  constructor
  · rintro (⟨c0, s0, h1, h2, h3⟩ | ⟨c0, s0, h1, h2, h3⟩)
    · exact ⟨c0, s0, h1, h2, Or.inl h3⟩
    · exact ⟨c0, s0, h1, h2, Or.inr h3⟩
  · rintro ⟨c0, s0, h1, h2, h3 | h3⟩
    · exact Or.inl ⟨c0, s0, h1, h2, h3⟩
    · exact Or.inr ⟨c0, s0, h1, h2, h3⟩

/-- Unfolding of the size bounds check. -/
theorem validate_size_iff (s : Int) :
    validate_size s = true ↔ 8 ≤ s ∧ s ≤ 512 := by
  simp [validate_size]

/-- Unfolding of the stroke bounds check. -/
theorem validate_stroke_iff (k : ℚ) :
    validate_stroke k = true ↔ 1 / 2 ≤ k ∧ k ≤ 3 := by
  simp [validate_stroke]

/-- The local validation of `get_icon` passes exactly when every provided
parameter passes its own validator. -/
theorem get_icon_validate_send_iff (size : Option Int) (stroke : Option ℚ)
    (color : Option (List Char)) :
    get_icon_validate size stroke color = .sendRequest ↔
      ((∀ s ∈ size, validate_size s = true) ∧
       (∀ k ∈ stroke, validate_stroke k = true) ∧
       (∀ cs ∈ color, validate_color cs = true)) := by
  rcases size with _ | s <;> rcases stroke with _ | k <;>
    rcases color with _ | c <;>
    simp only [get_icon_validate, Option.any_some, Option.any_none,
      Bool.not_eq_true', Option.mem_def, Option.some.injEq,
      Option.not_mem_none, if_false, forall_eq, IsEmpty.forall_iff,
      forall_eq_apply_imp_iff, true_and, and_true] <;>
    split_ifs <;> simp_all

/-! Claim theorems. -/

/-- C1 (counterexample): with `max_retries = 3` and a transport that
answers 503 on every attempt, BOTH executors stop after a single attempt,
performing no retry and no backoff sleep, and surface the classified
`ServiceUnavailableError`.  This refutes the claim that a response with
status ≥ 500 is retried while attempts remain (up to `max_retries`
retries): the sync retry loop only catches SDK `NetworkError` and
`TimeoutError`, and the async loop lets `SvgApiError` propagate past its
`except` clauses. -/
theorem C1_counterexample :
    sync_request 3 (1 / 2) (fun _ => 0) t503 =
      ⟨.exc (.sdk ⟨.serviceUnavailable, "Unknown error", none, some 503,
        none, none, none⟩), 1, []⟩ ∧
    async_request 3 (1 / 2) t503 =
      ⟨.exc (.sdk ⟨.serviceUnavailable, "Unknown error", none, some 503,
        none, none, none⟩), 1, []⟩ := by
  constructor <;> rfl

/-- C1 (amended): for every configuration and transport whose first
attempt completes with a status ≥ 500, both executors surface the
classified error — `ServiceUnavailable` for 503, `Server` (`ApiError`)
for other 5xx — immediately on the first occurrence, after exactly one
attempt and with no backoff sleeps, regardless of `max_retries`. -/
theorem C1_amended (mr : Nat) (rd : ℚ) (jit : Nat → ℚ)
    (t : Nat → TransportResult) (s : Nat) (b : Body) (rid : Option String)
    (h0 : t 0 = .ok s b rid) (h5 : 500 ≤ s) :
    ∃ e : SdkError, raise_for_status s b rid = .classified e ∧
      e.kind = (if s = 503 then ErrorKind.serviceUnavailable
        else ErrorKind.server) ∧
      e.statusCode = some s ∧
      sync_request mr rd jit t = ⟨.exc (.sdk e), 1, []⟩ ∧
      async_request mr rd t = ⟨.exc (.sdk e), 1, []⟩ := by
  have h400 : s ≠ 400 := by omega
  have h401 : s ≠ 401 := by omega
  have h404 : s ≠ 404 := by omega
  have h429 : s ≠ 429 := by omega
  have hcls : raise_for_status s b rid = .classified ⟨if s = 503 then
      .serviceUnavailable else .server, bodyMessage b, bodyCode b, some s,
      bodyDetails b, rid, none⟩ := by
    unfold raise_for_status
    rw [if_neg h400, if_neg h401, if_neg h404, if_neg h429, if_pos h5]
    by_cases h503 : s = 503
    · rw [if_pos h503, if_pos h503]
    · rw [if_neg h503, if_neg h503]
  have hhandle : sync_handle_response s b rid = .exc (.sdk ⟨if s = 503 then
      .serviceUnavailable else .server, bodyMessage b, bodyCode b, some s,
      bodyDetails b, rid, none⟩) := by
    unfold sync_handle_response
    rw [if_pos (by omega : 400 ≤ s), hcls]
    rfl
  have hmk : sync_make_request t 0 = .exc (.sdk ⟨if s = 503 then
      .serviceUnavailable else .server, bodyMessage b, bodyCode b, some s,
      bodyDetails b, rid, none⟩) := by
    simp only [sync_make_request, h0]
    exact hhandle
  have hnr : ∀ e, sync_make_request t 0 = .exc e →
      is_retryable_sync e = false := by
    intro e he
    simp only [sync_make_request, h0] at he
    exact handle_not_retryable s b rid e he
  refine ⟨_, hcls, rfl, rfl, ?_, ?_⟩
  · rw [sync_request_first_attempt mr rd jit t hnr, hmk]
  · rw [async_request_first_attempt mr rd t s b rid h0,
      ← handle_response_eq, hhandle]

/-- C1 (witness): `C1_amended` applied at `max_retries = 3`, a transport
answering 503 with an empty body. -/
theorem C1_witness :
    ∃ e : SdkError, raise_for_status 503 bodyEmpty none = .classified e ∧
      e.kind = (if 503 = 503 then ErrorKind.serviceUnavailable
        else ErrorKind.server) ∧
      e.statusCode = some 503 ∧
      sync_request 3 (1 / 2) (fun _ => 0) t503 = ⟨.exc (.sdk e), 1, []⟩ ∧
      async_request 3 (1 / 2) t503 = ⟨.exc (.sdk e), 1, []⟩ :=
  C1_amended 3 (1 / 2) (fun _ => 0) t503 503 bodyEmpty none rfl (by norm_num)

/-- C2 (counterexample): on the identical transport sequence (a connection
failure on every attempt) with `max_retries = 1`, the two executors
diverge in every observable: the sync executor performs 1 attempt and
surfaces the raw httpx network exception, while the async executor
performs 2 attempts, sleeps once for `retry_delay * 2^0` (computed by its
own inline formula, not by the shared `calculate_retry_delay`), and
surfaces the SDK `NetworkError`. -/
theorem C2_counterexample :
    sync_request 1 (1 / 2) (fun _ => 0) tconn = ⟨.exc .httpxNetwork, 1, []⟩ ∧
    async_request 1 (1 / 2) tconn =
      ⟨.exc (.sdk connNetworkError), 2, [1 / 2]⟩ ∧
    (sync_request 1 (1 / 2) (fun _ => 0) tconn).attempts ≠
      (async_request 1 (1 / 2) tconn).attempts ∧
    (sync_request 1 (1 / 2) (fun _ => 0) tconn).result ≠
      (async_request 1 (1 / 2) tconn).result := by
  have h : async_request 1 (1 / 2) tconn =
      ⟨.exc (.sdk connNetworkError), 2, [1 / 2 * 2 ^ 0]⟩ := rfl
  refine ⟨rfl, ?_, by decide, by decide⟩
  rw [h]
  norm_num

/-- C2 (amended): the two executors do exhibit identical observable
behaviour — same outcome, same attempt count, same (empty) delay list —
on every transport sequence consisting only of completed HTTP responses,
because every classified outcome is terminal on the first attempt in both
executors; they diverge only on transport-level failures. -/
theorem C2_amended (mr : Nat) (rd : ℚ) (jit : Nat → ℚ)
    (t : Nat → TransportResult)
    (h : ∀ n, ∃ s b r, t n = TransportResult.ok s b r) :
    sync_request mr rd jit t = async_request mr rd t := by
  obtain ⟨s, b, r, h0⟩ := h 0
  have hnr : ∀ e, sync_make_request t 0 = .exc e →
      is_retryable_sync e = false := by
    intro e he
    simp only [sync_make_request, h0] at he
    exact handle_not_retryable s b r e he
  rw [sync_request_first_attempt mr rd jit t hnr,
    async_request_first_attempt mr rd t s b r h0]
  simp only [sync_make_request, h0]
  rw [handle_response_eq]

/-- C2 (witness): `C2_amended` applied to an all-200 transport. -/
theorem C2_witness :
    sync_request 3 (1 / 2) (fun _ => 0) tok200 =
      async_request 3 (1 / 2) tok200 :=
  C2_amended 3 (1 / 2) (fun _ => 0) tok200
    (fun _ => ⟨200, bodyEmpty, none, rfl⟩)

/-- C3: evaluating the package root fails: the import list of
`__init__.py` requests `IconLicense` from `svg_api.types` (which defines
`License`, not `IconLicense`) and `ServerError` from `svg_api.errors`
(which defines `ApiError`, not `ServerError`), so `import svg_api` raises
an `ImportError` at the first missing name (`IconLicense`) and no name of
`__all__` becomes reachable through the package root. -/
theorem C3_theorem :
    package_root_import = Except.error "IconLicense" ∧
    package_root_import.isOk = false ∧
    "IconLicense" ∉ typesDefinedNames ∧ "License" ∈ typesDefinedNames ∧
    "ServerError" ∉ errorsDefinedNames ∧ "ApiError" ∈ errorsDefinedNames ∧
    "IconLicense" ∈ initAllNames ∧ "ServerError" ∈ initAllNames := by
  refine ⟨rfl, rfl, by decide, by decide, by decide, by decide,
    by decide, by decide⟩

/-- C4: evaluating both executors at the failing inputs.  A transport
connection failure (or timeout) in the synchronous client surfaces the
raw httpx exception after a single attempt — the `except
httpx.NetworkError` / `except httpx.TimeoutException` conversion handlers
in `SvgApi._handle_response` are unreachable, so no SDK `NetworkError` /
`TimeoutError` is ever produced and nothing is retried.  The asynchronous
client behaves as the claim says: it converts to the SDK taxonomy (and
retries before surfacing). -/
theorem C4_theorem :
    sync_request 3 (1 / 2) (fun _ => 0) tconn = ⟨.exc .httpxNetwork, 1, []⟩ ∧
    sync_request 3 (1 / 2) (fun _ => 0) ttimeout =
      ⟨.exc .httpxTimeout, 1, []⟩ ∧
    async_request 3 (1 / 2) tconn =
      ⟨.exc (.sdk connNetworkError), 4, [1 / 2, 1, 2]⟩ ∧
    async_request 3 (1 / 2) ttimeout =
      ⟨.exc (.sdk connTimeoutError), 4, [1 / 2, 1, 2]⟩ := by
  have hc : async_request 3 (1 / 2) tconn =
      ⟨.exc (.sdk connNetworkError), 4,
        [1 / 2 * 2 ^ 0, 1 / 2 * 2 ^ (0 + 1), 1 / 2 * 2 ^ (0 + 1 + 1)]⟩ := rfl
  have ht : async_request 3 (1 / 2) ttimeout =
      ⟨.exc (.sdk connTimeoutError), 4,
        [1 / 2 * 2 ^ 0, 1 / 2 * 2 ^ (0 + 1), 1 / 2 * 2 ^ (0 + 1 + 1)]⟩ := rfl
  refine ⟨rfl, rfl, ?_, ?_⟩
  · rw [hc]
    norm_num
  · rw [ht]
    norm_num

/-- C5 (counterexample): two statuses refute the claimed classification
table.  A 429 response does not yield a `RateLimit` error carrying
`retry_after` — the `RateLimitError` construction itself crashes with a
`TypeError` (`status_code` passed twice) — and a 403 response yields no
error at all (`raise_for_status` returns `None`, and the callers then
fail on `raise None`), rather than an `Unknown` error (no such kind
exists in `errors.py`). -/
theorem C5_counterexample :
    raise_for_status 429 body429 none = .ctorCrash ∧
    raise_for_status 403 bodyEmpty none = .noMatch ∧
    sync_handle_response 429 body429 none = .exc .rateLimitCtorCrash ∧
    sync_handle_response 403 bodyEmpty none = .exc .raisedNone ∧
    async_handle_response 403 bodyEmpty none = .exc .raisedNone := by
  refine ⟨rfl, rfl, rfl, rfl, rfl⟩

/-- C5 (amended): the classifier agrees everywhere with the corrected
table `classify_spec` — status < 400 → success with the body as payload;
400 → InvalidRequest; 401 → Authentication; 404 → NotFound; 429 → a
TypeError while constructing RateLimit (no error object); 503 →
ServiceUnavailable; other ≥ 500 → Server; any other status → no
classified error (`None`, making the caller raise a TypeError); message,
code and details are read from `body.error` with message defaulting to
"Unknown error". -/
theorem C5_amended (s : Nat) (b : Body) (rid : Option String) :
    raise_for_status s b rid = classify_spec s b rid ∧
    sync_handle_response s b rid =
      (if s < 400 then ExecOutcome.ok b
        else excOf (classify_spec s b rid)) ∧
    async_handle_response s b rid =
      (if s < 400 then ExecOutcome.ok b
        else excOf (classify_spec s b rid)) := by
  have hmain : raise_for_status s b rid = classify_spec s b rid := by
    unfold raise_for_status classify_spec
    split_ifs <;> first | rfl | omega
  refine ⟨hmain, ?_, ?_⟩ <;> {
    simp only [sync_handle_response, async_handle_response]
    by_cases hs : 400 ≤ s
    · rw [if_pos hs, if_neg (by omega), hmain]
    · rw [if_neg hs, if_pos (by omega)]
  }

/-- C6 (counterexample): at the default `base_delay = 0.5` with
`attempt = 7` and zero jitter, the computed delay is 30 (the cap), which
is strictly below the claimed lower bound `base * 2^attempt = 64`, so the
delay does not lie in `[base*2^attempt, base*2^attempt*1.1]`. -/
theorem C6_counterexample :
    calculate_retry_delay 7 (1 / 2) 30 2 0 < (1 / 2) * 2 ^ 7 := by
  norm_num [calculate_retry_delay, min_def]

/-- C6 (amended): for every attempt in `[0,10)`, nonnegative base delay
and jitter fraction in `[0,1)`, the delay lies in
`[min(base*2^attempt, max_delay), min(base*2^attempt, max_delay)*1.1]`
(the capped exponential, with up to 10 percent jitter), hence never
exceeds `max_delay*1.1 = 33` and is never negative. -/
theorem C6_amended (attempt : Nat) (base q : ℚ) (hattempt : attempt < 10)
    (hbase : 0 ≤ base) (hq0 : 0 ≤ q) (hq1 : q < 1) :
    min (base * 2 ^ attempt) 30 ≤ calculate_retry_delay attempt base 30 2 q ∧
    calculate_retry_delay attempt base 30 2 q
      ≤ min (base * 2 ^ attempt) 30 * (11 / 10) ∧
    calculate_retry_delay attempt base 30 2 q ≤ 30 * (11 / 10) ∧
    0 ≤ calculate_retry_delay attempt base 30 2 q := by
  unfold calculate_retry_delay
  have hpow : (0 : ℚ) ≤ base * 2 ^ attempt := by positivity
  have hc0 : (0 : ℚ) ≤ min (base * 2 ^ attempt) 30 :=
    le_min hpow (by norm_num)
  have hc30 : min (base * 2 ^ attempt) 30 ≤ 30 := min_le_right _ _
  set c : ℚ := min (base * 2 ^ attempt) 30 with hc
  refine ⟨?_, ?_, ?_, ?_⟩
  · nlinarith
  · nlinarith
  · nlinarith
  · nlinarith

/-- C6 (witness): `C6_amended` at `attempt = 3`, `base = 1/2`,
`q = 1/2`. -/
theorem C6_witness :
    min ((1 / 2 : ℚ) * 2 ^ 3) 30 ≤ calculate_retry_delay 3 (1 / 2) 30 2 (1 / 2) ∧
    calculate_retry_delay 3 (1 / 2) 30 2 (1 / 2)
      ≤ min ((1 / 2 : ℚ) * 2 ^ 3) 30 * (11 / 10) ∧
    calculate_retry_delay 3 (1 / 2) 30 2 (1 / 2) ≤ 30 * (11 / 10) ∧
    0 ≤ calculate_retry_delay 3 (1 / 2) 30 2 (1 / 2) :=
  C6_amended 3 (1 / 2) (1 / 2) (by norm_num) (by norm_num) (by norm_num)
    (by norm_num)

/-- C7 (counterexample): a 429 response does not surface the classified
rate-limit error: in BOTH executors what surfaces (immediately, with no
retry) is the `TypeError` thrown while constructing `RateLimitError`
(`status_code` passed twice), not a classified `RateLimit` SDK error. -/
theorem C7_counterexample :
    sync_request 3 (1 / 2) (fun _ => 0) t429 =
      ⟨.exc .rateLimitCtorCrash, 1, []⟩ ∧
    async_request 3 (1 / 2) t429 = ⟨.exc .rateLimitCtorCrash, 1, []⟩ :=
  ⟨rfl, rfl⟩

/-- C7 (amended): every 4xx-classified status (400, 401, 404, 429) is
terminal on first occurrence in both executors — exactly one attempt, no
backoff — regardless of `max_retries`; for 400/401/404 the surfaced
exception is the classified (non-retryable) SDK error, while for 429 it
is the `TypeError` from the failed `RateLimitError` construction. -/
theorem C7_amended (mr : Nat) (rd : ℚ) (jit : Nat → ℚ)
    (t : Nat → TransportResult) (s : Nat) (b : Body) (rid : Option String)
    (h0 : t 0 = .ok s b rid)
    (hs : s = 400 ∨ s = 401 ∨ s = 404 ∨ s = 429) :
    sync_request mr rd jit t = ⟨excOf (raise_for_status s b rid), 1, []⟩ ∧
    async_request mr rd t = ⟨excOf (raise_for_status s b rid), 1, []⟩ ∧
    (s = 429 → raise_for_status s b rid = .ctorCrash) ∧
    (s ≠ 429 → ∃ e, raise_for_status s b rid = .classified e ∧
      e.statusCode = some s ∧ is_retryable_sync (.sdk e) = false) := by
  have h400 : 400 ≤ s := by omega
  have hhandle : sync_handle_response s b rid =
      excOf (raise_for_status s b rid) := by
    unfold sync_handle_response
    rw [if_pos h400]
  have hnr : ∀ e, sync_make_request t 0 = .exc e →
      is_retryable_sync e = false := by
    intro e he
    simp only [sync_make_request, h0] at he
    exact handle_not_retryable s b rid e he
  refine ⟨?_, ?_, ?_, ?_⟩
  · rw [sync_request_first_attempt mr rd jit t hnr]
    simp only [sync_make_request, h0]
    rw [hhandle]
  · rw [async_request_first_attempt mr rd t s b rid h0, ← handle_response_eq,
      hhandle]
  · intro h429
    subst h429
    unfold raise_for_status
    norm_num
  · intro h429
    rcases hs with rfl | rfl | rfl | rfl
    · exact ⟨_, rfl, rfl, rfl⟩
    · exact ⟨_, rfl, rfl, rfl⟩
    · exact ⟨_, rfl, rfl, rfl⟩
    · exact absurd rfl h429

/-- C7 (witness): `C7_amended` at a transport answering 404 with an empty
body and `max_retries = 3`. -/
theorem C7_witness :
    sync_request 3 (1 / 2) (fun _ => 0) t404 =
      ⟨excOf (raise_for_status 404 bodyEmpty none), 1, []⟩ ∧
    async_request 3 (1 / 2) t404 =
      ⟨excOf (raise_for_status 404 bodyEmpty none), 1, []⟩ ∧
    (404 = 429 → raise_for_status 404 bodyEmpty none = .ctorCrash) ∧
    (404 ≠ 429 → ∃ e, raise_for_status 404 bodyEmpty none = .classified e ∧
      e.statusCode = some 404 ∧ is_retryable_sync (.sdk e) = false) :=
  C7_amended 3 (1 / 2) (fun _ => 0) t404 404 bodyEmpty none rfl
    (by norm_num)

/-- C8 (counterexample): the color `"red\n"` is neither a 6-hex-digit
hash string nor a lowercase alphabetic token, yet `validate_color`
accepts it (the Python `$` anchor also matches before one final newline),
so `get_icon` with this color passes local validation and proceeds to
issue the network request instead of raising `InvalidRequest`. -/
theorem C8_counterexample :
    specHexColor colorRedNl = false ∧ specLowerToken colorRedNl = false ∧
    validate_color colorRedNl = true ∧
    get_icon_validate none none (some colorRedNl) = .sendRequest := by
  refine ⟨by decide, by decide, by decide, by decide⟩

/-- C8 (amended): `get_icon` raises `InvalidRequest` locally — before any
network request — exactly when a provided size is outside `[8,512]`, a
provided stroke is outside `[0.5,3.0]`, or a provided color is not of the
form: a 6-hex-digit hash string or a lowercase alphabetic token,
optionally followed by one trailing newline (an artifact of the Python
`$` anchor); parameters of these forms pass validation and the request is
sent. -/
theorem C8_amended (size : Option Int) (stroke : Option ℚ)
    (color : Option (List Char)) :
    get_icon_validate size stroke color = .sendRequest ↔
      ((∀ s ∈ size, 8 ≤ s ∧ s ≤ 512) ∧
       (∀ k ∈ stroke, 1 / 2 ≤ k ∧ k ≤ 3) ∧
       (∀ cs ∈ color, ∃ core suffix, cs = core ++ suffix ∧
         (suffix = [] ∨ suffix = ['\n']) ∧
         (specHexColor core = true ∨ specLowerToken core = true))) := by
  simp only [get_icon_validate_send_iff, validate_size_iff,
    validate_stroke_iff, validate_color_iff]

/-- C9: evaluating `get_batch` at the failing input.  The `icons`
validation of `BatchRequestOptions` is implemented exactly as the claim
describes — it passes precisely for 1 to 50 items with non-empty names,
and an empty list, an over-50 list or an empty name fails it before any
HTTP request — but the `defaults` field validation fails on every call
(`get_batch` passes a `BatchIconRequest` where a `BatchDefaults` is
required), so even a conforming list raises a `ValidationError` before
`_request` and no input ever reaches the transport. -/
theorem C9_theorem :
    (∀ icons : List BatchIconRequestM,
      (batch_icons_validate icons).isOk = true ↔
        (1 ≤ icons.length ∧ icons.length ≤ 50 ∧ ∀ i ∈ icons, i.name ≠ "")) ∧
    (∀ icons : List BatchIconRequestM, get_batch_check icons ≠ .sendRequest) ∧
    (batch_icons_validate [⟨"home"⟩]).isOk = true ∧
    get_batch_check [⟨"home"⟩] = .invalidBatch
      "Input should be a valid dictionary or instance of BatchDefaults" ∧
    get_batch_check [] = .invalidBatch "List should have at least 1 item" ∧
    get_batch_check (List.replicate 51 ⟨"home"⟩) =
      .invalidBatch "List should have at most 50 items" ∧
    get_batch_check [⟨""⟩] = .invalidBatch "Icon name is required" := by
  refine ⟨?_, ?_, rfl, rfl, rfl, rfl, rfl⟩
  · intro icons
    unfold batch_icons_validate
    split_ifs with h1 h2
    · constructor
      · intro h
        exact absurd h (by decide)
      · rintro ⟨ha, _, _⟩
        exact absurd ha (by omega)
    · constructor
      · intro h
        exact absurd h (by decide)
      · rintro ⟨_, hb, _⟩
        exact absurd hb (by omega)
    · cases hf : icons.find? (fun i => i.name == "") with
      | some i =>
        have hmem := List.mem_of_find?_eq_some hf
        have hp := List.find?_some hf
        simp only [beq_iff_eq] at hp
        simp only [hf]
        constructor
        · intro h
          exact absurd h (by decide)
        · intro h
          exact absurd hp (h.2.2 i hmem)
      | none =>
        simp only [hf]
        constructor
        · intro _
          refine ⟨by omega, by omega, ?_⟩
          intro i hi
          have := List.find?_eq_none.mp hf i hi
          simpa using this
        · intro _
          rfl
  · intro icons
    unfold get_batch_check
    cases hv : batch_icons_validate icons <;>
      simp [hv, defaults_field_validate]

/-- C10 (counterexample): after `close` (even once), a request on the
synchronous client fails — `SvgApi` never recreates its `httpx.Client`,
so the request does not transparently reestablish the connection resource
and succeed as claimed. -/
theorem C10_counterexample :
    sync_send (sync_close_client (sync_close_client syncInitState)) =
      Except.error "Cannot send a request, as the client has been closed" :=
  rfl

/-- C10 (amended): closing twice is an idempotent no-op on both clients
(close never raises); after close, the aiohttp async client transparently
rebuilds an open session via `_get_session` and the next request
succeeds, while the synchronous client — which has no reopening logic —
fails on the next request. -/
theorem C10_amended :
    sync_close_client (sync_close_client syncInitState) =
      sync_close_client syncInitState ∧
    (sync_send syncInitState).isOk = true ∧
    (sync_send (sync_close_client syncInitState)).isOk = false ∧
    async_close_client (async_close_client (async_send asyncInitState).1) =
      async_close_client (async_send asyncInitState).1 ∧
    (async_send (async_close_client (async_send asyncInitState).1)).2 = true ∧
    (async_send (async_close_client (async_send asyncInitState).1)).1 =
      ⟨some ⟨false⟩⟩ :=
  ⟨rfl, rfl, rfl, rfl, rfl, rfl⟩

end SvgApiSdk
